import Mathlib

/-!
Verification of the pydoc-markdown CLI core (`src/pydoc_markdown/main.py`):
the override applier (`RenderSession._apply_overrides`), the pipeline runner
(`RenderSession.render`) and the watch/rebuild/serve loop
(`RenderSession.watch_and_serve`).

The Python code is shallowly embedded: configuration objects become Lean
structures, runtime `isinstance` tests become constructor tests or recorded
booleans, `error(...)` (which prints and exits the process) becomes the
`Except.error` branch of the embedded function, and the unbounded watch loop
becomes a step interpreter driven by a finite trace of externally supplied
iteration events (render outcome, change signals, serve outcome, interrupt).
-/

namespace PydocMd

/-! ## Data model

`PythonLoader` carries the three fields mutated by the override applier
(`modules`, `search_path`, `print_function`).  Other loader kinds are opaque:
only their failing `isinstance(l, PythonLoader)` test matters. -/

structure PythonLoader where
  modules : List String
  search_path : List String
  print_function : Bool
  deriving DecidableEq, Repr

inductive Loader where
  | python (p : PythonLoader)
  | other (kind : String)
  deriving DecidableEq, Repr

/-- `isinstance(l, PythonLoader)`. -/
def Loader.isPython : Loader → Bool
  | .python _ => true
  | .other _ => false

/-- The `MarkdownRenderer` state touched by the overrides: its `render_toc`
flag. -/
structure MarkdownRenderer where
  render_toc : Bool
  deriving DecidableEq, Repr

/-- One entry of `config.renderer.__fields__`, in declaration order.  A field
whose declared datatype is a `StructType` over a subclass of
`MarkdownRenderer` (the `isinstance(field.datatype, StructType) and
issubclass(field.datatype.struct_cls, MarkdownRenderer)` test) carries the
sub-renderer value that `getattr(config.renderer, field.name)` returns. -/
inductive RendererField where
  | markdownField (name : String) (value : MarkdownRenderer)
  | otherField (name : String)
  deriving DecidableEq, Repr

/-- Whether the field passes the `StructType`/`issubclass` scan. -/
def RendererField.isMarkdownStruct : RendererField → Bool
  | .markdownField _ _ => true
  | .otherField _ => false

/-- A renderer configuration: its concrete class name (`type(r).__name__`),
the results of the two runtime `isinstance` tests the CLI performs on it,
its own `MarkdownRenderer` state (meaningful when `isMarkdownInstance`), and
its declared fields in order. -/
structure Renderer where
  kindName : String
  isMarkdownInstance : Bool
  isMkdocsInstance : Bool
  selfMarkdown : MarkdownRenderer
  fields : List RendererField
  deriving DecidableEq, Repr

/-- A module of the symbol graph; only `m.location.filename` is consulted. -/
structure GraphModule where
  location_filename : String
  deriving DecidableEq, Repr

/-- The `PydocMarkdown` pipeline object: loaders, processors (opaque), the
renderer, and the symbol graph produced by `load_modules`. -/
structure PydocMarkdown where
  loaders : List Loader
  processors : List String
  renderer : Renderer
  graph_modules : List GraphModule
  deriving DecidableEq, Repr

/-- `self.config`: `Union[None, dict, str]` — nothing, an inline parsed
document, or a configuration file path. -/
inductive ConfigSource where
  | noneSource
  | inlineDoc (doc : String)
  | file (path : String)
  deriving DecidableEq, Repr

/-- The `RenderSession` constructor state: the configuration source and the
four command-line overrides. -/
structure RenderSession where
  config : ConfigSource
  render_toc : Option Bool
  search_path : List String
  modules : List String
  py2 : Option Bool
  deriving DecidableEq, Repr

/-! ## Override applier (`RenderSession._apply_overrides`) -/

/-- The two `error(...)` exits of `_apply_overrides`; both are
`MissingCapableStage` failures in the spec taxonomy. -/
inductive AppError where
  | noPythonLoader
  | noMarkdownRenderer (kind : String)
  deriving DecidableEq, Repr

/-- `next((l for l in config.loaders if isinstance(l, PythonLoader)), None)`. -/
def findPythonLoader : List Loader → Option PythonLoader
  | [] => none
  | .python p :: _ => some p
  | .other _ :: rest => findPythonLoader rest

/-- In-place mutation of the loader object found by `findPythonLoader`:
rebuild the loader list with the first python loader updated. -/
def setFirstPython (f : PythonLoader → PythonLoader) : List Loader → List Loader
  | [] => []
  | .python p :: rest => .python (f p) :: rest
  | .other k :: rest => .other k :: setFirstPython f rest

/-- The three conditional assignments on the found loader:
`if self.modules: loader.modules = self.modules`,
`if self.search_path: loader.search_path = self.search_path`,
`if self.py2 is not None: loader.print_function = not self.py2`. -/
def applyLoaderOverrides (s : RenderSession) (p : PythonLoader) : PythonLoader :=
  let p := if s.modules.isEmpty then p else { p with modules := s.modules }
  let p := if s.search_path.isEmpty then p else { p with search_path := s.search_path }
  match s.py2 with
  | some b => { p with print_function := !b }
  | none => p

/-- The `for field in config.renderer.__fields__.values(): ... break` scan:
set `render_toc` on the value of the first field whose declared type is a
`MarkdownRenderer` struct; `none` when the loop falls through to `else`. -/
def setFirstMarkdownToc (v : Bool) : List RendererField → Option (List RendererField)
  | [] => none
  | .markdownField n m :: rest =>
      some (.markdownField n { m with render_toc := v } :: rest)
  | .otherField n :: rest =>
      (setFirstMarkdownToc v rest).map (fun fs => .otherField n :: fs)

/-- First half of `_apply_overrides`: the
`if self.modules or self.search_path or self.py2 is not None` block.  Empty
lists are falsy, `py2` is compared against `None`. -/
def loaderStage (s : RenderSession) (c : PydocMarkdown) :
    Except AppError PydocMarkdown :=
  if !s.modules.isEmpty || !s.search_path.isEmpty || s.py2.isSome then
    match findPythonLoader c.loaders with
    | none => Except.error AppError.noPythonLoader
    | some _ =>
        Except.ok { c with loaders := setFirstPython (applyLoaderOverrides s) c.loaders }
  else
    Except.ok c

/-- Second half of `_apply_overrides`: the `if self.render_toc is not None`
block — field scan, then the `for`-`else` fallback on the renderer itself,
then the `error(...)` exit naming the renderer's concrete class. -/
def tocStage (s : RenderSession) (c : PydocMarkdown) :
    Except AppError PydocMarkdown :=
  match s.render_toc with
  | none => Except.ok c
  | some v =>
    match setFirstMarkdownToc v c.renderer.fields with
    | some fs => Except.ok { c with renderer := { c.renderer with fields := fs } }
    | none =>
        if c.renderer.isMarkdownInstance then
          Except.ok { c with renderer :=
            { c.renderer with selfMarkdown := { c.renderer.selfMarkdown with render_toc := v } } }
        else
          Except.error (AppError.noMarkdownRenderer c.renderer.kindName)

/-- `RenderSession._apply_overrides`: loader overrides first, then the TOC
override.  `error(...)` terminates the Python process, so a failing
application yields no configuration at all; this is the `Except.error`
branch. -/
def applyOverrides (s : RenderSession) (c : PydocMarkdown) :
    Except AppError PydocMarkdown :=
  (loaderStage s c).bind (tocStage s)

/-! ## Pipeline runner (`RenderSession.render`)

`render` invokes the three stages (external collaborators) and then computes
the watch set.  The symbol graph after `load_modules` is the
`graph_modules` field of the configuration object.  The Python line
`if isinstance(config, str): watch_files.add(config)` tests the *parameter*
`config`, which is the `PydocMarkdown` pipeline object (it shadows
`self.config`), so the test is always false and the branch is dead; the
embedding keeps the session argument to make that visible. -/

def RenderSession.render (_self : RenderSession) (config : PydocMarkdown) :
    List String :=
  let watch_files := (config.graph_modules.map (fun m => m.location_filename)).dedup
  -- if isinstance(config, str): `config : PydocMarkdown`, never a str
  watch_files

/-- Modelled from the spec: the WatchSet §4.2 step 4 prescribes — "the set of
distinct source-file locations of every symbol-graph module, plus the
configuration's own originating file path if applicable".  Stated for
comparison with `RenderSession.render`, which is the code's behaviour. -/
def specWatchSet (self : RenderSession) (config : PydocMarkdown) : List String :=
  let base := (config.graph_modules.map (fun m => m.location_filename)).dedup
  match self.config with
  | ConfigSource.file path => (base ++ [path]).dedup
  | _ => base

/-! ## Watch/rebuild/serve loop (`RenderSession.watch_and_serve`)

The loop body runs forever inside `try: while True: ... finally: ...`.  It is
embedded as a step interpreter over a finite trace of iteration
environments supplying everything the outside world decides:

* whether `self.render(config)` raises or which watch files it returns,
* how many change signals arrive while that render is in flight
  (delivered to the change event of the watch registration installed
  *before* the render, when one exists — `watch_paths` is modelled from the
  spec §6: `watch(paths) -> (handle, change-signal)`, the fresh signal
  starting unset and `stop()` always safe),
* whether `config.renderer.mkdocs_serve()` raises,
* how many change signals arrive during the `event.wait(0.5)` window
  (delivered to the currently installed change event), and
* whether an external interrupt (e.g. KeyboardInterrupt) arrives during
  that wait.

Observer handles and process handles are numbered in creation order so that
every `stop()` and `terminate()` call can be recorded. -/

structure IterEnv where
  renderOk : Bool
  renderFiles : List String
  sigsDuringRender : Nat
  serveOk : Bool
  sigsDuringWait : Nat
  interrupt : Bool
  deriving DecidableEq, Repr

/-- The loop's mutable state: `observer, event, process = None, None, None`
and `watch_files = []`, plus the recorded `stop()`/`terminate()` calls and
the number of completed `self.render` invocations. -/
structure LoopState where
  observerCtr : Nat
  observer : Option Nat
  eventSet : Option Bool
  procCtr : Nat
  process : Option Nat
  watch_files : List String
  stops : List Nat
  terms : List Nat
  rendersDone : Nat
  deriving DecidableEq, Repr

def initState : LoopState :=
  { observerCtr := 0, observer := none, eventSet := none, procCtr := 0,
    process := none, watch_files := [], stops := [], terms := [],
    rendersDone := 0 }

inductive ExitReason where
  | renderError
  | serveError
  | interrupted
  deriving DecidableEq, Repr

/-- Change signals arriving in the `event.wait(0.5)` window set the current
event's flag (any positive number of them writes the same single flag). -/
def setWaitSignals (s : LoopState) (e : IterEnv) : LoopState :=
  if e.sigsDuringWait > 0 then
    { s with eventSet := s.eventSet.map (fun _ => true) }
  else s

/-- The `event.wait(0.5)` window: change signals set the current event's
flag; an interrupt raised here unwinds the loop. -/
def waitPhase (s : LoopState) (e : IterEnv) : (ExitReason × LoopState) ⊕ LoopState :=
  if e.interrupt then Sum.inl (ExitReason.interrupted, setWaitSignals s e)
  else Sum.inr (setWaitSignals s e)

/-- The `if process is None: process = config.renderer.mkdocs_serve()` block
followed by the wait. -/
def servePhase (s : LoopState) (e : IterEnv) : (ExitReason × LoopState) ⊕ LoopState :=
  match s.process with
  | some _ => waitPhase s e
  | none =>
      if e.serveOk then
        waitPhase { s with process := some s.procCtr, procCtr := s.procCtr + 1 } e
      else
        Sum.inl (ExitReason.serveError, s)

/-- `if not event or event.is_set()`. -/
def renderTriggered (s : LoopState) : Bool :=
  match s.eventSet with
  | none => true
  | some b => b

/-- `if observer: observer.stop()` -- record the `stop()` call on the
current registration. -/
def stopObserver (s : LoopState) : LoopState :=
  match s.observer with
  | some h => { s with stops := s.stops ++ [h] }
  | none => s

/-- `observer, event = watch_paths(watch_files)` -- a fresh registration
with a fresh, unset change event replaces the current one. -/
def installWatch (s : LoopState) : LoopState :=
  { s with observer := some s.observerCtr,
           observerCtr := s.observerCtr + 1,
           eventSet := some false }

/-- `if process: process.terminate()`. -/
def termProcess (s : LoopState) : LoopState :=
  match s.process with
  | some p => { s with terms := s.terms ++ [p] }
  | none => s

/-- One iteration of `while True`.  When the render block runs: a raising
`self.render` unwinds immediately; otherwise the old registration (whose
change flag absorbed the `sigsDuringRender` signals) is stopped and
replaced by a fresh one from `watch_paths`, with a fresh unset change
event — the signals that arrived mid-render are therefore discarded with
the old event. -/
def stepIter (s : LoopState) (e : IterEnv) : (ExitReason × LoopState) ⊕ LoopState :=
  if renderTriggered s then
    if e.renderOk then
      servePhase
        (installWatch (stopObserver
          { s with rendersDone := s.rendersDone + 1, watch_files := e.renderFiles })) e
    else
      Sum.inl (ExitReason.renderError, s)
  else
    servePhase s e

/-- The `finally` block: `if observer: observer.stop()` then
`if process: process.terminate()`. -/
def runFinally (s : LoopState) : LoopState :=
  termProcess (stopObserver s)

/-- The state carried onward by a step, whether it exits or continues. -/
def stepOut : (ExitReason × LoopState) ⊕ LoopState → LoopState
  | Sum.inl (_, s) => s
  | Sum.inr s => s

/-- Result of driving the loop through a trace: `exit = none` means the loop
is still running after the trace (it never returns normally); on exit the
state already includes the `finally` cleanup. -/
structure RunResult where
  exit : Option ExitReason
  state : LoopState
  deriving DecidableEq, Repr

def runLoop : LoopState → List IterEnv → RunResult
  | s, [] => { exit := none, state := s }
  | s, e :: es =>
      match stepIter s e with
      | Sum.inl (r, s1) => { exit := some r, state := runFinally s1 }
      | Sum.inr s1 => runLoop s1 es

/-- The fatal entry check of `watch_and_serve`. -/
inductive CliError where
  | unsupportedRenderer
  deriving DecidableEq, Repr

/-- `RenderSession.watch_and_serve`: refuse non-mkdocs renderers before any
state is created, then drive the loop.  `webbrowser.open` is an external
side effect with no bearing on loop state and is not tracked. -/
def watch_and_serve (config : PydocMarkdown) (trace : List IterEnv) :
    Except CliError RunResult :=
  if config.renderer.isMkdocsInstance then
    Except.ok (runLoop initState trace)
  else
    Except.error CliError.unsupportedRenderer

/-! ## Derived predicates used by the statements -/

/-- The loader half of `_apply_overrides` does not abort: either no loader
override was requested, or a python loader is present. -/
def loaderPartOk (s : RenderSession) (c : PydocMarkdown) : Prop :=
  (s.modules = [] ∧ s.search_path = [] ∧ s.py2 = none) ∨
    (findPythonLoader c.loaders).isSome = true

/-- Cleanup has fully executed: every watch registration ever installed has
received exactly one `stop()` (in creation order), and every preview process
ever started exactly one `terminate()`. -/
def ExitClean (s : LoopState) : Prop :=
  s.stops = List.range s.observerCtr ∧ s.terms = List.range s.procCtr

/-- Process-lifecycle facts: at most one preview process is ever started,
and only after at least one successful render. -/
def ProcInv (s : LoopState) : Prop :=
  s.procCtr ≤ 1 ∧ (1 ≤ s.procCtr → 1 ≤ s.rendersDone)

/-- The loop-state invariant maintained while the loop runs: handles are
numbered consecutively, every handle but the live one has been stopped in
order, no `terminate()` has been issued, the process (if any) is the single
one ever started and postdates a successful render, and a change event only
exists once a render has completed. -/
def Inv (s : LoopState) : Prop :=
  (s.observer = none → s.observerCtr = 0 ∧ s.stops = []) ∧
  (∀ h, s.observer = some h → s.observerCtr = h + 1 ∧ s.stops = List.range h) ∧
  (s.process = none → s.procCtr = 0) ∧
  (∀ p, s.process = some p → p = 0 ∧ s.procCtr = 1 ∧ 1 ≤ s.rendersDone) ∧
  s.terms = [] ∧
  (s.eventSet.isSome = true → 1 ≤ s.rendersDone)

/-- Erase the change signals that arrive while a render is in flight. -/
def zeroRenderSigs (e : IterEnv) : IterEnv :=
  { e with sigsDuringRender := 0 }

/-- Collapse any positive number of wait-window change signals to one. -/
def clampWaitSigs (e : IterEnv) : IterEnv :=
  { e with sigsDuringWait := min e.sigsDuringWait 1 }

/-! ## Concrete instances used by counterexamples and witnesses -/

def exMarkdown : MarkdownRenderer := { render_toc := false }

def exMdRenderer : Renderer :=
  { kindName := "MarkdownRenderer", isMarkdownInstance := true,
    isMkdocsInstance := false, selfMarkdown := exMarkdown, fields := [] }

def exMkdocsRenderer : Renderer :=
  { kindName := "MkdocsRenderer", isMarkdownInstance := false,
    isMkdocsInstance := true, selfMarkdown := exMarkdown,
    fields := [RendererField.otherField "pages",
               RendererField.markdownField "markdown" exMarkdown] }

def exPythonLoader : PythonLoader :=
  { modules := ["my_module"], search_path := ["src"], print_function := true }

def exConfig : PydocMarkdown :=
  { loaders := [Loader.python exPythonLoader],
    processors := ["filter", "smart", "crossref"],
    renderer := exMkdocsRenderer,
    graph_modules := [{ location_filename := "/src/a.py" }] }

def exSession : RenderSession :=
  { config := ConfigSource.file "pydoc-markdown.yml", render_toc := none,
    search_path := [], modules := [], py2 := none }

def exSessionToc : RenderSession := { exSession with render_toc := some true }

def exSessionFull : RenderSession :=
  { exSession with render_toc := some true, search_path := ["lib"],
                   modules := ["other_module"], py2 := some false }

def exSessionModules : RenderSession := { exSession with modules := ["other_module"] }

def exNoLoaderConfig : PydocMarkdown := { exConfig with loaders := [] }

def exMdConfig : PydocMarkdown := { exConfig with renderer := exMdRenderer }

/-- Quiet loop iteration: render succeeds, no signals, no interrupt. -/
def quietEnv : IterEnv :=
  { renderOk := true, renderFiles := ["/src/a.py"], sigsDuringRender := 0,
    serveOk := true, sigsDuringWait := 0, interrupt := false }

def midRenderSigEnv : IterEnv := { quietEnv with sigsDuringRender := 2 }

def waitSigEnv : IterEnv := { quietEnv with sigsDuringWait := 1 }

def failRenderEnv : IterEnv := { quietEnv with renderOk := false }

/-- The loop state after one quiet iteration from `initState`. -/
def oneIterState : LoopState :=
  { observerCtr := 1, observer := some 0, eventSet := some false,
    procCtr := 1, process := some 0, watch_files := ["/src/a.py"],
    stops := [], terms := [], rendersDone := 1 }

/-- The configuration `applyOverrides exSessionFull exConfig` produces. -/
def exOnce : PydocMarkdown :=
  { loaders := [Loader.python
      { modules := ["other_module"], search_path := ["lib"], print_function := true }],
    processors := ["filter", "smart", "crossref"],
    renderer := { exMkdocsRenderer with fields :=
      [RendererField.otherField "pages",
       RendererField.markdownField "markdown" { render_toc := true }] },
    graph_modules := [{ location_filename := "/src/a.py" }] }

/-- The run result after one quiet iteration: still running. -/
def quietRunResult : RunResult := { exit := none, state := oneIterState }

/-- The run result for `[waitSigEnv, midRenderSigEnv, quietEnv, quietEnv]`:
a signal triggers a re-render, two further signals arrive while that
re-render is in flight, then two quiet iterations pass. -/
def exTwoRenderResult : RunResult :=
  { exit := none,
    state := { observerCtr := 2, observer := some 1, eventSet := some false,
               procCtr := 1, process := some 0, watch_files := ["/src/a.py"],
               stops := [0], terms := [], rendersDone := 2 } }

/-- The run result for the trace `[waitSigEnv, failRenderEnv]`: a change
signal triggers a re-render whose pipeline stage raises. -/
def exExitResult : RunResult :=
  { exit := some ExitReason.renderError,
    state := { observerCtr := 1, observer := some 0, eventSet := some true,
               procCtr := 1, process := some 0, watch_files := ["/src/a.py"],
               stops := [0], terms := [0], rendersDone := 1 } }

/-! ## Lemmas: the override applier -/

theorem findPythonLoader_eq_none_iff (ls : List Loader) :
    findPythonLoader ls = none ↔ ∀ l ∈ ls, l.isPython = false := by
  induction ls with
  | nil => simp [findPythonLoader]
  | cons l rest ih =>
      cases l with
      | python p => simp [findPythonLoader, Loader.isPython]
      | other k => simp [findPythonLoader, Loader.isPython, ih]

theorem setFirstMarkdownToc_first (v : Bool) (pre : List RendererField)
    (n : String) (m : MarkdownRenderer) (post : List RendererField)
    (hpre : ∀ f ∈ pre, f.isMarkdownStruct = false) :
    setFirstMarkdownToc v (pre ++ RendererField.markdownField n m :: post) =
      some (pre ++ RendererField.markdownField n { m with render_toc := v } :: post) := by
  induction pre with
  | nil => simp [setFirstMarkdownToc]
  | cons f rest ih =>
      cases f with
      | markdownField n2 m2 =>
          exact absurd (hpre _ (List.mem_cons_self _ _))
            (by simp [RendererField.isMarkdownStruct])
      | otherField n2 =>
          have hrec := ih (fun f hf => hpre f (List.mem_cons_of_mem _ hf))
          simp [setFirstMarkdownToc, hrec]

theorem setFirstMarkdownToc_eq_none (v : Bool) (fs : List RendererField)
    (h : ∀ f ∈ fs, f.isMarkdownStruct = false) :
    setFirstMarkdownToc v fs = none := by
  induction fs with
  | nil => rfl
  | cons f rest ih =>
      cases f with
      | markdownField n m =>
          exact absurd (h _ (List.mem_cons_self _ _))
            (by simp [RendererField.isMarkdownStruct])
      | otherField n =>
          simp [setFirstMarkdownToc, ih (fun f hf => h f (List.mem_cons_of_mem _ hf))]

theorem setFirstMarkdownToc_idem (v : Bool) :
    ∀ fs fs2, setFirstMarkdownToc v fs = some fs2 →
      setFirstMarkdownToc v fs2 = some fs2 := by
  intro fs
  induction fs with
  | nil => intro fs2 h; simp [setFirstMarkdownToc] at h
  | cons f rest ih =>
      intro fs2 h
      cases f with
      | markdownField n m =>
          simp [setFirstMarkdownToc] at h
          subst h
          simp [setFirstMarkdownToc]
      | otherField n =>
          simp [setFirstMarkdownToc] at h
          obtain ⟨fs3, h3, rfl⟩ := h
          simp [setFirstMarkdownToc, ih fs3 h3]

theorem applyLoaderOverrides_idem (s : RenderSession) (p : PythonLoader) :
    applyLoaderOverrides s (applyLoaderOverrides s p) = applyLoaderOverrides s p := by
  unfold applyLoaderOverrides
  cases hm : s.modules.isEmpty <;> cases hs : s.search_path.isEmpty <;>
    cases hp : s.py2 <;> simp [hm, hs, hp]

theorem setFirstPython_idem (f : PythonLoader → PythonLoader)
    (hf : ∀ p, f (f p) = f p) :
    ∀ ls, setFirstPython f (setFirstPython f ls) = setFirstPython f ls := by
  intro ls
  induction ls with
  | nil => rfl
  | cons l rest ih =>
      cases l with
      | python p => simp [setFirstPython, hf]
      | other k => simp [setFirstPython, ih]

theorem findPythonLoader_setFirstPython (f : PythonLoader → PythonLoader) :
    ∀ ls p, findPythonLoader ls = some p →
      findPythonLoader (setFirstPython f ls) = some (f p) := by
  intro ls
  induction ls with
  | nil => intro p h; simp [findPythonLoader] at h
  | cons l rest ih =>
      intro p h
      cases l with
      | python q =>
          simp [findPythonLoader] at h
          subst h
          simp [setFirstPython, findPythonLoader]
      | other k =>
          simp [findPythonLoader] at h
          simp [setFirstPython, findPythonLoader, ih p h]

theorem loaderStage_ok_renderer (s : RenderSession) (c : PydocMarkdown)
    (h : loaderPartOk s c) :
    ∃ c1, loaderStage s c = Except.ok c1 ∧ c1.renderer = c.renderer := by
  cases hfp : findPythonLoader c.loaders with
  | some p =>
      unfold loaderStage
      rw [hfp]
      split
      · exact ⟨_, rfl, rfl⟩
      · exact ⟨c, rfl, rfl⟩
  | none =>
      rcases h with ⟨h1, h2, h3⟩ | hs
      · unfold loaderStage
        simp [h1, h2, h3]
      · rw [hfp] at hs
        simp at hs

theorem loaderStage_idem_after (s : RenderSession) (c c1 c2 : PydocMarkdown)
    (hst : loaderStage s c = Except.ok c1) (hl : c2.loaders = c1.loaders) :
    loaderStage s c2 = Except.ok c2 := by
  unfold loaderStage at hst ⊢
  split at hst
  · rename_i hcond
    cases hfp : findPythonLoader c.loaders with
    | none => rw [hfp] at hst; exact absurd hst (by simp)
    | some p =>
        rw [hfp] at hst
        have hc1 : c1 = { c with loaders := setFirstPython (applyLoaderOverrides s) c.loaders } := by
          exact (Except.ok.inj hst).symm
        have hl2 : c2.loaders = setFirstPython (applyLoaderOverrides s) c.loaders := by
          rw [hl, hc1]
        rw [if_pos hcond]
        rw [hl2, findPythonLoader_setFirstPython _ _ _ hfp]
        have : setFirstPython (applyLoaderOverrides s)
            (setFirstPython (applyLoaderOverrides s) c.loaders) =
            setFirstPython (applyLoaderOverrides s) c.loaders := by
          exact setFirstPython_idem _ (applyLoaderOverrides_idem s) _
        rw [this, ← hl2]
  · rename_i hcond
    rw [if_neg hcond]

theorem tocStage_loaders_eq (s : RenderSession) (c c2 : PydocMarkdown)
    (h : tocStage s c = Except.ok c2) : c2.loaders = c.loaders := by
  unfold tocStage at h
  cases htoc : s.render_toc with
  | none =>
      simp only [htoc] at h
      obtain rfl := Except.ok.inj h
      rfl
  | some v =>
      simp only [htoc] at h
      cases hm : setFirstMarkdownToc v c.renderer.fields with
      | some fs =>
          simp only [hm] at h
          obtain rfl := Except.ok.inj h
          rfl
      | none =>
          simp only [hm] at h
          split at h
          · obtain rfl := Except.ok.inj h
            rfl
          · exact absurd h (by simp)

theorem tocStage_idem (s : RenderSession) (c c2 : PydocMarkdown)
    (h : tocStage s c = Except.ok c2) : tocStage s c2 = Except.ok c2 := by
  unfold tocStage at h ⊢
  cases htoc : s.render_toc with
  | none => simp only [htoc]
  | some v =>
      simp only [htoc] at h ⊢
      cases hm : setFirstMarkdownToc v c.renderer.fields with
      | some fs =>
          simp only [hm] at h
          obtain rfl := Except.ok.inj h.symm
          simp [setFirstMarkdownToc_idem v _ _ hm]
      | none =>
          simp only [hm] at h
          split at h
          · rename_i hmi
            obtain rfl := Except.ok.inj h.symm
            simp [setFirstMarkdownToc_eq_none, hm, hmi]
          · exact absurd h (by simp)

/-! ## Lemmas: the watch loop -/

theorem Inv.procInv (s : LoopState) (h : Inv s) : ProcInv s := by
  obtain ⟨-, -, hpn, hps, -, -⟩ := h
  cases hp : s.process with
  | none => have hc := hpn hp; exact ⟨by omega, fun hle => by omega⟩
  | some p =>
      obtain ⟨-, h1, h2⟩ := hps p hp
      exact ⟨by omega, fun _ => h2⟩

theorem stopObserver_rendersDone (s : LoopState) :
    (stopObserver s).rendersDone = s.rendersDone := by
  unfold stopObserver; cases s.observer <;> rfl

theorem runFinally_procInv (s : LoopState) (h : ProcInv s) :
    ProcInv (runFinally s) := by
  unfold runFinally termProcess stopObserver
  cases s.observer <;> cases hp : s.process <;> simp_all [ProcInv]

theorem runFinally_clean (s : LoopState) (h : Inv s) : ExitClean (runFinally s) := by
  obtain ⟨hon, hos, hpn, hps, hterm, -⟩ := h
  unfold runFinally termProcess stopObserver ExitClean
  cases ho : s.observer with
  | none =>
      obtain ⟨hc, hst⟩ := hon ho
      cases hp : s.process with
      | none => simp [hc, hst, hpn hp, hterm]
      | some p =>
          obtain ⟨hp0, hc1, -⟩ := hps p hp
          simp [hc, hst, hp0, hc1, hterm, List.range_succ]
  | some hdl =>
      obtain ⟨hc, hst⟩ := hos hdl ho
      cases hp : s.process with
      | none => simp [hc, hst, hpn hp, hterm, List.range_succ]
      | some p =>
          obtain ⟨hp0, hc1, -⟩ := hps p hp
          simp [hc, hst, hp0, hc1, hterm, List.range_succ]

theorem setWaitSignals_inv (s : LoopState) (e : IterEnv) (h : Inv s) :
    Inv (setWaitSignals s e) := by
  unfold setWaitSignals
  split
  · obtain ⟨hon, hos, hpn, hps, ht, hev⟩ := h
    refine ⟨hon, hos, hpn, hps, ht, fun hs => hev ?_⟩
    cases hev2 : s.eventSet with
    | none => exact absurd hs (by simp [hev2])
    | some b => simp [hev2]
  · exact h

theorem waitPhase_inv (s : LoopState) (e : IterEnv) (h : Inv s) :
    Inv (stepOut (waitPhase s e)) := by
  unfold waitPhase
  split <;> exact setWaitSignals_inv s e h

theorem servePhase_inv (s : LoopState) (e : IterEnv) (h : Inv s)
    (hr : 1 ≤ s.rendersDone) : Inv (stepOut (servePhase s e)) := by
  unfold servePhase
  cases hp : s.process with
  | some q => exact waitPhase_inv s e h
  | none =>
      cases hok : e.serveOk
      · simp only [Bool.false_eq_true, if_false, stepOut]
        exact h
      · simp only [if_true]
        apply waitPhase_inv
        obtain ⟨hon, hos, hpn, hps, ht, hev⟩ := h
        have hc : s.procCtr = 0 := hpn hp
        refine ⟨hon, hos, fun hnone => ?_, fun p hp2 => ?_, ht, hev⟩
        · exact absurd hnone (by simp)
        · have hpe : s.procCtr = p := Option.some.inj hp2
          refine ⟨by omega, by simp [hc], hr⟩

theorem Inv_bump (s : LoopState) (wf : List String) (h : Inv s) :
    Inv { s with rendersDone := s.rendersDone + 1, watch_files := wf } := by
  obtain ⟨hon, hos, hpn, hps, ht, hev⟩ := h
  refine ⟨hon, hos, hpn, fun p hp => ?_, ht, fun _ => by simp⟩
  obtain ⟨h1, h2, h3⟩ := hps p hp
  exact ⟨h1, h2, by simp [h3]⟩

theorem installWatch_stop_inv (s : LoopState) (h : Inv s)
    (hr : 1 ≤ s.rendersDone) : Inv (installWatch (stopObserver s)) := by
  obtain ⟨hon, hos, hpn, hps, ht, hev⟩ := h
  unfold installWatch stopObserver
  cases ho : s.observer with
  | none =>
      obtain ⟨hc, hst⟩ := hon ho
      refine ⟨fun hno => absurd hno (by simp), fun h2 hh2 => ?_, hpn, hps, ht, fun _ => hr⟩
      have : s.observerCtr = h2 := Option.some.inj hh2
      subst this
      exact ⟨rfl, by simp [hc, hst]⟩
  | some hdl =>
      obtain ⟨hc, hst⟩ := hos hdl ho
      refine ⟨fun hno => absurd hno (by simp), fun h2 hh2 => ?_, hpn, hps, by simp [ht], fun _ => hr⟩
      have : s.observerCtr = h2 := Option.some.inj hh2
      subst this
      refine ⟨rfl, ?_⟩
      simp [hc, hst, List.range_succ]

theorem stepIter_inv (s : LoopState) (e : IterEnv) (h : Inv s) :
    Inv (stepOut (stepIter s e)) := by
  unfold stepIter
  cases ht : renderTriggered s
  · simp only [Bool.false_eq_true, if_false]
    have hev : s.eventSet = some false := by
      unfold renderTriggered at ht
      cases hev2 : s.eventSet with
      | none => rw [hev2] at ht; simp at ht
      | some b =>
          rw [hev2] at ht
          cases b
          · rfl
          · simp at ht
    exact servePhase_inv s e h (h.2.2.2.2.2 (by simp [hev]))
  · simp only [if_true]
    cases hok : e.renderOk
    · simp only [Bool.false_eq_true, if_false, stepOut]
      exact h
    · simp only [if_true]
      refine servePhase_inv _ e ?_ ?_
      · exact installWatch_stop_inv _ (Inv_bump s e.renderFiles h) (by simp)
      · rw [show (installWatch (stopObserver { s with rendersDone := s.rendersDone + 1, watch_files := e.renderFiles })).rendersDone = (stopObserver { s with rendersDone := s.rendersDone + 1, watch_files := e.renderFiles }).rendersDone from rfl, stopObserver_rendersDone]
        simp

theorem runLoop_spec (tr : List IterEnv) : ∀ s, Inv s →
    ((runLoop s tr).exit = none ∧ Inv (runLoop s tr).state) ∨
    ((runLoop s tr).exit ≠ none ∧ ExitClean (runLoop s tr).state ∧
      ProcInv (runLoop s tr).state) := by
  induction tr with
  | nil => intro s h; exact Or.inl ⟨rfl, h⟩
  | cons e es ih =>
      intro s h
      have hstep := stepIter_inv s e h
      cases hs : stepIter s e with
      | inl p =>
          obtain ⟨r, s1⟩ := p
          rw [hs] at hstep
          simp only [stepOut] at hstep
          refine Or.inr ?_
          simp only [runLoop, hs]
          exact ⟨by simp, runFinally_clean s1 hstep,
                 runFinally_procInv s1 (Inv.procInv s1 hstep)⟩
      | inr s1 =>
          rw [hs] at hstep
          simp only [stepOut] at hstep
          simp only [runLoop, hs]
          exact ih s1 hstep

theorem initState_inv : Inv initState := by
  refine ⟨fun _ => ⟨rfl, rfl⟩, fun h hh => ?_, fun _ => rfl, fun p hp => ?_, rfl, fun hs => ?_⟩
  · simp [initState] at hh
  · simp [initState] at hp
  · simp [initState] at hs

/-! ## Claims -/

/-- C4.  The claim: for every successful pipeline run whose configuration
originated from a file, the WatchSet contains that configuration file's own
path.  The code's `if isinstance(config, str)` tests the `PydocMarkdown`
parameter `config` — which shadows `self.config` — so it is always false and
the configuration path is never added.  At this concrete input the session's
configuration originated from the file `pydoc-markdown.yml`, yet the
returned watch list holds only the module's source file; the spec-modelled
WatchSet additionally holds the configuration path. -/
theorem C4_config_path_never_in_watchset :
    exSession.config = ConfigSource.file "pydoc-markdown.yml" ∧
    RenderSession.render exSession exConfig = ["/src/a.py"] ∧
    "pydoc-markdown.yml" ∉ RenderSession.render exSession exConfig ∧
    "pydoc-markdown.yml" ∈ specWatchSet exSession exConfig := by
  refine ⟨rfl, rfl, by decide, by decide⟩

/-- C5.  With `render_toc` set (and the loader half of the override
application not aborting), the applier (1) updates the TOC flag of the value
of the first renderer field whose declared type is a Markdown-renderer
struct, touching nothing else of the renderer; (2) otherwise, when the
renderer itself is a Markdown renderer, sets its own TOC flag; (3) otherwise
fails with the `MissingCapableStage` error naming the renderer's concrete
kind, producing no configuration at all. -/
theorem C5_toc_search_order (s : RenderSession) (c : PydocMarkdown) (v : Bool)
    (htoc : s.render_toc = some v) (hld : loaderPartOk s c) :
    (∀ pre n m post,
        c.renderer.fields = pre ++ RendererField.markdownField n m :: post →
        (∀ f ∈ pre, f.isMarkdownStruct = false) →
        ∃ c2, applyOverrides s c = Except.ok c2 ∧
          c2.renderer.fields =
            pre ++ RendererField.markdownField n { m with render_toc := v } :: post ∧
          c2.renderer.selfMarkdown = c.renderer.selfMarkdown ∧
          c2.renderer.kindName = c.renderer.kindName) ∧
    ((∀ f ∈ c.renderer.fields, f.isMarkdownStruct = false) →
        c.renderer.isMarkdownInstance = true →
        ∃ c2, applyOverrides s c = Except.ok c2 ∧
          c2.renderer.selfMarkdown.render_toc = v ∧
          c2.renderer.fields = c.renderer.fields) ∧
    ((∀ f ∈ c.renderer.fields, f.isMarkdownStruct = false) →
        c.renderer.isMarkdownInstance = false →
        applyOverrides s c = Except.error (AppError.noMarkdownRenderer c.renderer.kindName)) := by
  obtain ⟨c1, hst, hr⟩ := loaderStage_ok_renderer s c hld
  have happ : applyOverrides s c = tocStage s c1 := by
    unfold applyOverrides; rw [hst]; rfl
  refine ⟨?_, ?_, ?_⟩
  · intro pre n m post hf hpre
    have hset := setFirstMarkdownToc_first v pre n m post hpre
    refine ⟨{ c1 with renderer := { c.renderer with
                fields := pre ++ RendererField.markdownField n { m with render_toc := v } :: post } },
            ?_, rfl, rfl, rfl⟩
    rw [happ]
    unfold tocStage
    simp only [htoc, hr, hf, hset]
  · intro hall hmi
    have hnone : setFirstMarkdownToc v c.renderer.fields = none :=
      setFirstMarkdownToc_eq_none v _ hall
    refine ⟨{ c1 with renderer := { c.renderer with
                selfMarkdown := { c.renderer.selfMarkdown with render_toc := v } } },
            ?_, rfl, rfl⟩
    rw [happ]
    unfold tocStage
    simp only [htoc, hr, hnone, hmi, if_true]
  · intro hall hmi
    have hnone : setFirstMarkdownToc v c.renderer.fields = none :=
      setFirstMarkdownToc_eq_none v _ hall
    rw [happ]
    unfold tocStage
    simp only [htoc, hr, hnone, hmi, Bool.false_eq_true, if_false]

/-- C5 witness: at the concrete mkdocs configuration, whose second declared
field is the Markdown-renderer struct field `markdown`, the scan finds and
updates it. -/
theorem C5_witness :
    exSessionToc.render_toc = some true ∧
    (∃ c2, applyOverrides exSessionToc exConfig = Except.ok c2 ∧
      c2.renderer.fields =
        [RendererField.otherField "pages"] ++
          RendererField.markdownField "markdown" { exMarkdown with render_toc := true } :: [] ∧
      c2.renderer.selfMarkdown = exConfig.renderer.selfMarkdown ∧
      c2.renderer.kindName = exConfig.renderer.kindName) :=
  ⟨rfl, (C5_toc_search_order exSessionToc exConfig true rfl (Or.inl ⟨rfl, rfl, rfl⟩)).1
      [RendererField.otherField "pages"] "markdown" exMarkdown [] rfl (by decide)⟩

/-- C6.  A requested loader override (non-empty module list, non-empty
search-path list, or a set legacy-syntax toggle) against a configuration
none of whose loaders is a python loader — in particular one with zero
loaders — makes the applier fail with the `MissingCapableStage` error for
the loader; the error exit produces no configuration, so nothing is
mutated. -/
theorem C6_loader_override_requires_python_loader (s : RenderSession)
    (c : PydocMarkdown)
    (hreq : s.modules ≠ [] ∨ s.search_path ≠ [] ∨ s.py2 ≠ none)
    (hno : ∀ l ∈ c.loaders, l.isPython = false) :
    applyOverrides s c = Except.error AppError.noPythonLoader := by
  have hfp : findPythonLoader c.loaders = none :=
    (findPythonLoader_eq_none_iff c.loaders).mpr hno
  have hcond : (!s.modules.isEmpty || !s.search_path.isEmpty || s.py2.isSome) = true := by
    rcases hreq with hh | hh | hh
    · simp [List.isEmpty_iff, hh]
    · simp [List.isEmpty_iff, hh]
    · simp [Option.isSome_iff_ne_none, hh]
  unfold applyOverrides loaderStage
  simp only [hcond, if_true, hfp]
  rfl

/-- C6 witness: requesting modules against a zero-loader configuration. -/
theorem C6_witness :
    exSessionModules.modules ≠ [] ∧
    exNoLoaderConfig.loaders = [] ∧
    applyOverrides exSessionModules exNoLoaderConfig =
      Except.error AppError.noPythonLoader :=
  ⟨by decide, rfl,
   C6_loader_override_requires_python_loader exSessionModules exNoLoaderConfig
     (Or.inl (by decide)) (fun l hl => by simp [exNoLoaderConfig, exConfig] at hl)⟩

/-- C7.  Override application is idempotent: every override assigns rather
than accumulates, so a configuration produced by one successful application
is a fixed point of a second application of the same override set. -/
theorem C7_apply_overrides_idempotent (s : RenderSession) (c c2 : PydocMarkdown)
    (h : applyOverrides s c = Except.ok c2) :
    applyOverrides s c2 = Except.ok c2 := by
  unfold applyOverrides at h ⊢
  cases hst : loaderStage s c with
  | error e =>
      rw [hst] at h
      exact absurd h (by simp [Except.bind])
  | ok c1 =>
      rw [hst] at h
      replace h : tocStage s c1 = Except.ok c2 := h
      have hl : c2.loaders = c1.loaders := tocStage_loaders_eq s c1 c2 h
      have hstage2 : loaderStage s c2 = Except.ok c2 :=
        loaderStage_idem_after s c c1 c2 hst hl
      rw [hstage2]
      exact tocStage_idem s c1 c2 h

/-- C7 witness: a full override set applied twice to the concrete mkdocs
configuration. -/
theorem C7_witness :
    applyOverrides exSessionFull exConfig = Except.ok exOnce ∧
    applyOverrides exSessionFull exOnce = Except.ok exOnce :=
  ⟨rfl, C7_apply_overrides_idempotent exSessionFull exConfig exOnce rfl⟩

/-- C10.  An override set whose module and search-path collections are empty
and whose legacy toggle is unset never reaches the loader lookup: it cannot
produce the loader `MissingCapableStage` error (even with zero loaders), any
successful application leaves the loader list untouched, and if the TOC
override is also unset the configuration is returned unchanged. -/
theorem C10_empty_collections_skip_loader_lookup (s : RenderSession)
    (c : PydocMarkdown) (hm : s.modules = []) (hs : s.search_path = [])
    (hp : s.py2 = none) :
    applyOverrides s c ≠ Except.error AppError.noPythonLoader ∧
    (∀ c2, applyOverrides s c = Except.ok c2 → c2.loaders = c.loaders) ∧
    (s.render_toc = none → applyOverrides s c = Except.ok c) := by
  have hstage : loaderStage s c = Except.ok c := by
    unfold loaderStage
    simp [hm, hs, hp]
  have happ : applyOverrides s c = tocStage s c := by
    unfold applyOverrides; rw [hstage]; rfl
  refine ⟨?_, ?_, ?_⟩
  · rw [happ]
    unfold tocStage
    cases htoc : s.render_toc with
    | none => simp
    | some v =>
        simp only
        cases hmm : setFirstMarkdownToc v c.renderer.fields with
        | some fs => simp [hmm]
        | none =>
            simp only [hmm]
            split
            · simp
            · simp
  · intro c2 h2
    rw [happ] at h2
    exact tocStage_loaders_eq s c c2 h2
  · intro htoc
    rw [happ]
    unfold tocStage
    simp [htoc]

/-- C10 witness: the all-empty override set against the zero-loader
configuration is the identity and raises no loader error. -/
theorem C10_witness :
    exSession.modules = [] ∧ exSession.search_path = [] ∧ exSession.py2 = none ∧
    applyOverrides exSession exNoLoaderConfig ≠ Except.error AppError.noPythonLoader ∧
    applyOverrides exSession exNoLoaderConfig = Except.ok exNoLoaderConfig :=
  ⟨rfl, rfl, rfl,
   (C10_empty_collections_skip_loader_lookup exSession exNoLoaderConfig rfl rfl rfl).1,
   (C10_empty_collections_skip_loader_lookup exSession exNoLoaderConfig rfl rfl rfl).2.2 rfl⟩

/-! ## Lemmas: signal sensitivity of the loop -/

theorem stepIter_congr (s : LoopState) (e e2 : IterEnv)
    (h1 : e2.renderOk = e.renderOk) (h2 : e2.renderFiles = e.renderFiles)
    (h3 : e2.serveOk = e.serveOk) (h4 : e2.interrupt = e.interrupt)
    (h5 : (e2.sigsDuringWait > 0) = (e.sigsDuringWait > 0)) :
    stepIter s e2 = stepIter s e := by
  unfold stepIter servePhase waitPhase setWaitSignals
  simp only [h1, h2, h3, h4, h5]

theorem stepIter_zeroRenderSigs (s : LoopState) (e : IterEnv) :
    stepIter s (zeroRenderSigs e) = stepIter s e :=
  stepIter_congr s e (zeroRenderSigs e) rfl rfl rfl rfl rfl

theorem stepIter_clampWaitSigs (s : LoopState) (e : IterEnv) :
    stepIter s (clampWaitSigs e) = stepIter s e := by
  refine stepIter_congr s e (clampWaitSigs e) rfl rfl rfl rfl ?_
  unfold clampWaitSigs
  exact propext (by constructor <;> (intro hh; simp at hh ⊢; omega))

theorem runLoop_map_congr (g : IterEnv → IterEnv)
    (hg : ∀ s e, stepIter s (g e) = stepIter s e) :
    ∀ tr s, runLoop s (tr.map g) = runLoop s tr := by
  intro tr
  induction tr with
  | nil => intro s; rfl
  | cons e es ih =>
      intro s
      show runLoop s (g e :: es.map g) = runLoop s (e :: es)
      unfold runLoop
      rw [hg s e]
      cases stepIter s e with
      | inl p => rfl
      | inr s1 => exact ih s1

theorem waitPhase_inr (s : LoopState) (e : IterEnv) (s1 : LoopState)
    (h : waitPhase s e = Sum.inr s1) : s1 = setWaitSignals s e := by
  unfold waitPhase at h
  split at h
  · exact absurd h (by simp)
  · exact (Sum.inr.inj h).symm

theorem servePhase_inr (s : LoopState) (e : IterEnv) (s1 : LoopState)
    (h : servePhase s e = Sum.inr s1) :
    ∃ s2, s1 = setWaitSignals s2 e ∧ s2.eventSet = s.eventSet := by
  unfold servePhase at h
  cases hp : s.process with
  | some q =>
      simp only [hp] at h
      exact ⟨s, waitPhase_inr s e s1 h, rfl⟩
  | none =>
      simp only [hp] at h
      split at h
      · exact ⟨_, waitPhase_inr _ e s1 h, rfl⟩
      · exact absurd h (by simp)

theorem renderTriggered_false_eventSet (s : LoopState)
    (ht : renderTriggered s = false) : s.eventSet = some false := by
  unfold renderTriggered at ht
  cases hx : s.eventSet with
  | none => simp only [hx] at ht; exact absurd ht (by simp)
  | some b =>
      simp only [hx] at ht
      rw [ht]

/-! ## Claims about the watch loop -/

/-- C1 counterexample.  The claim: a pipeline stage raising during an
iteration does not terminate the loop, and the prior file-watch
registration remains in effect.  At the concrete trace — one quiet
iteration, a change signal, then a raising render — the loop exits with
`renderError` and the installed registration (handle 0) has been stopped
and the preview process terminated, refuting both parts. -/
theorem C1_counterexample :
    watch_and_serve exConfig [waitSigEnv, failRenderEnv] = Except.ok exExitResult ∧
    exExitResult.exit = some ExitReason.renderError ∧
    exExitResult.state.stops = [0] ∧
    exExitResult.state.terms = [0] := ⟨rfl, rfl, rfl, rfl⟩

/-- C1 amended: when a pipeline stage raises during an iteration whose
render block runs, the loop terminates at once — the rest of the trace is
never consumed — and the exception unwinds through the cleanup block, which
stops the installed registration and terminates the started preview
process (`runFinally`). -/
theorem C1_amended_render_error_terminates (s : LoopState) (e : IterEnv)
    (rest : List IterEnv) (ht : renderTriggered s = true)
    (hfail : e.renderOk = false) :
    (runLoop s (e :: rest)).exit = some ExitReason.renderError ∧
    (runLoop s (e :: rest)).state = runFinally s := by
  have hstep : stepIter s e = Sum.inl (ExitReason.renderError, s) := by
    unfold stepIter
    simp only [ht, if_true, hfail, Bool.false_eq_true, if_false]
  have hrun : runLoop s (e :: rest) =
      { exit := some ExitReason.renderError, state := runFinally s } := by
    simp only [runLoop, hstep]
  rw [hrun]
  exact ⟨rfl, rfl⟩

/-- C1 amended witness: a raising first render terminates immediately. -/
theorem C1_amended_witness :
    renderTriggered initState = true ∧ failRenderEnv.renderOk = false ∧
    (runLoop initState [failRenderEnv]).exit = some ExitReason.renderError ∧
    (runLoop initState [failRenderEnv]).state = runFinally initState :=
  ⟨rfl, rfl,
   (C1_amended_render_error_terminates initState failRenderEnv [] rfl rfl).1,
   (C1_amended_render_error_terminates initState failRenderEnv [] rfl rfl).2⟩

/-- C2 counterexample.  The claim: N ≥ 1 change signals arriving while a
render is in flight trigger exactly one subsequent re-render.  At the
concrete trace — a wait-window signal, then a re-render during which two
signals arrive, then two quiet iterations — the total render count is 2
(initial render plus the signalled re-render): the two mid-render signals
triggered zero further re-renders, not the claimed exactly one (which
would make the count 3). -/
theorem C2_counterexample :
    watch_and_serve exConfig [waitSigEnv, midRenderSigEnv, quietEnv, quietEnv] =
      Except.ok exTwoRenderResult ∧
    exTwoRenderResult.state.rendersDone = 2 ∧
    exTwoRenderResult.state.rendersDone ≠ 3 := ⟨rfl, rfl, by decide⟩

/-- C2 amended: signals arriving while a render is in flight trigger zero
subsequent re-renders — they are delivered to the change flag of the watch
registration that is replaced when the render completes, so erasing them
from a trace changes nothing about the run.  Coalescing happens for
signals arriving during the wait window instead: any positive count has
exactly the effect of one such signal, namely marking the change flag so
that exactly the next iteration re-renders. -/
theorem C2_amended_mid_render_signals_dropped :
    (∀ s tr, runLoop s (tr.map zeroRenderSigs) = runLoop s tr) ∧
    (∀ s tr, runLoop s (tr.map clampWaitSigs) = runLoop s tr) ∧
    (∀ s e s1, renderTriggered s = false → 0 < e.sigsDuringWait →
      stepIter s e = Sum.inr s1 → renderTriggered s1 = true) := by
  refine ⟨fun s tr => runLoop_map_congr zeroRenderSigs stepIter_zeroRenderSigs tr s,
          fun s tr => runLoop_map_congr clampWaitSigs stepIter_clampWaitSigs tr s,
          fun s e s1 ht hw hstep => ?_⟩
  have hev : s.eventSet = some false := renderTriggered_false_eventSet s ht
  unfold stepIter at hstep
  simp only [ht, Bool.false_eq_true, if_false] at hstep
  obtain ⟨s2, rfl, hev2⟩ := servePhase_inr s e s1 hstep
  have hset : (setWaitSignals s2 e).eventSet = some true := by
    unfold setWaitSignals
    rw [if_pos hw]
    simp [hev2, hev]
  unfold renderTriggered
  simp [hset]

/-- C2 amended witness: a single wait-window signal at the post-render
state marks the change flag, so the next iteration re-renders. -/
theorem C2_amended_witness :
    renderTriggered oneIterState = false ∧
    0 < waitSigEnv.sigsDuringWait ∧
    stepIter oneIterState waitSigEnv =
      Sum.inr { oneIterState with eventSet := some true } ∧
    renderTriggered { oneIterState with eventSet := some true } = true :=
  ⟨rfl, by decide, rfl,
   C2_amended_mid_render_signals_dropped.2.2 oneIterState waitSigEnv
     { oneIterState with eventSet := some true } rfl (by decide) rfl⟩

/-- C3.  On every exit of the loop — interrupt, raising render, or failing
preview start — cleanup runs exactly once: the recorded `stop()` calls are
precisely the created registration handles, one each in creation order, and
the recorded `terminate()` calls precisely the started processes, one
each. -/
theorem C3_cleanup_guaranteed (cfg : PydocMarkdown) (tr : List IterEnv)
    (r : RunResult) (hok : watch_and_serve cfg tr = Except.ok r)
    (hexit : r.exit ≠ none) :
    r.state.stops = List.range r.state.observerCtr ∧
    r.state.terms = List.range r.state.procCtr := by
  unfold watch_and_serve at hok
  split at hok
  · obtain rfl := Except.ok.inj hok
    rcases runLoop_spec tr initState initState_inv with ⟨he, -⟩ | ⟨-, hclean, -⟩
    · exact absurd he hexit
    · exact hclean
  · exact absurd hok (by simp)

/-- C3 witness: the raising-re-render trace exits with handle 0 stopped and
process 0 terminated, each exactly once. -/
theorem C3_witness :
    watch_and_serve exConfig [waitSigEnv, failRenderEnv] = Except.ok exExitResult ∧
    exExitResult.exit ≠ none ∧
    (exExitResult.state.stops = List.range exExitResult.state.observerCtr ∧
     exExitResult.state.terms = List.range exExitResult.state.procCtr) :=
  ⟨rfl, by simp [exExitResult],
   C3_cleanup_guaranteed exConfig [waitSigEnv, failRenderEnv] exExitResult rfl
     (by simp [exExitResult])⟩

/-- C8.  The loop refuses at entry when the renderer is not the mkdocs
renderer (the only serve-capable one): the fatal `UnsupportedRenderer`
error is returned before the loop runs at all — no trace is consumed, so
no render, registration or process ever happens. -/
theorem C8_requires_serve_capability (cfg : PydocMarkdown) (tr : List IterEnv)
    (h : cfg.renderer.isMkdocsInstance = false) :
    watch_and_serve cfg tr = Except.error CliError.unsupportedRenderer := by
  unfold watch_and_serve
  simp [h]

/-- C8 witness: the bare markdown renderer is rejected. -/
theorem C8_witness :
    exMdConfig.renderer.isMkdocsInstance = false ∧
    watch_and_serve exMdConfig [quietEnv] = Except.error CliError.unsupportedRenderer :=
  ⟨rfl, C8_requires_serve_capability exMdConfig [quietEnv] rfl⟩

/-- C9.  Throughout every run at most one preview process is ever started;
a started process implies at least one completed render preceded it
(lazy start after the first successful render, never restarted); and no
`terminate()` is issued while the loop is still running. -/
theorem C9_single_lazy_process (cfg : PydocMarkdown) (tr : List IterEnv)
    (r : RunResult) (hok : watch_and_serve cfg tr = Except.ok r) :
    r.state.procCtr ≤ 1 ∧
    (1 ≤ r.state.procCtr → 1 ≤ r.state.rendersDone) ∧
    (r.exit = none → r.state.terms = []) := by
  unfold watch_and_serve at hok
  split at hok
  · obtain rfl := Except.ok.inj hok
    rcases runLoop_spec tr initState initState_inv with ⟨-, hinv⟩ | ⟨hne, -, hproc⟩
    · have hp := Inv.procInv _ hinv
      exact ⟨hp.1, hp.2, fun _ => hinv.2.2.2.2.1⟩
    · exact ⟨hproc.1, hproc.2, fun he => absurd he hne⟩
  · exact absurd hok (by simp)

/-- C9 witness: after one quiet iteration exactly one process is live, it
postdates the first render, and nothing has been terminated. -/
theorem C9_witness :
    watch_and_serve exConfig [quietEnv] = Except.ok quietRunResult ∧
    (quietRunResult.state.procCtr ≤ 1 ∧
     (1 ≤ quietRunResult.state.procCtr → 1 ≤ quietRunResult.state.rendersDone) ∧
     (quietRunResult.exit = none → quietRunResult.state.terms = [])) :=
  ⟨rfl, C9_single_lazy_process exConfig [quietEnv] quietRunResult rfl⟩

end PydocMd
